import Mathlib

/-!
Verification development for the job-recommendation engine
(`recommendation_engine.py`, `appwrite_client.py`).

The Python code is shallowly embedded: Python strings are `String`,
string methods (`lower`, `strip`, `split`, `in`) are re-implemented
structurally over `List Char` with Python semantics, floats are modelled
as `ℚ`, dictionaries are insertion-ordered association lists, `None` is
`Option.none`, and the external Appwrite collaborator (user store, job
store, activity store) together with the TF-IDF vectorizer is an explicit
environment record of pure functions.
-/

/-! ## Python string primitives -/

/-- Python `s.lower()` (ASCII case folding, as used by the engine's data). -/
def pyLower (s : String) : String := String.mk (s.data.map Char.toLower)

/-- Characters stripped by Python `str.strip()` with no argument. -/
def stripList (l : List Char) : List Char :=
  ((l.dropWhile Char.isWhitespace).reverse.dropWhile Char.isWhitespace).reverse

/-- Python `s.strip()`. -/
def pyStrip (s : String) : String := String.mk (stripList s.data)

/-- Splitting helper: cut a character list at every separator position,
keeping empty segments (Python `str.split(sep)` semantics). -/
def splitByAux (p : Char → Bool) : List Char → List Char → List String
  | [], acc => [String.mk acc.reverse]
  | x :: xs, acc =>
    if p x then String.mk acc.reverse :: splitByAux p xs []
    else splitByAux p xs (x :: acc)

/-- Python `s.split(',')`: empty segments are kept. -/
def pySplitComma (s : String) : List String :=
  splitByAux (fun c => c = ',') s.data []

/-- Python `s.split()` with no argument: split on whitespace runs,
empty tokens dropped. -/
def pySplitWs (s : String) : List String :=
  (splitByAux Char.isWhitespace s.data []).filter (fun t => !t.isEmpty)

/-- Contiguous-sublist test on character lists. -/
def infixAux (needle : List Char) : List Char → Bool
  | [] => needle.isEmpty
  | c :: rest => needle.isPrefixOf (c :: rest) || infixAux needle rest

/-- Python `sub in hay` for strings. -/
def pyContains (hay sub : String) : Bool := infixAux sub.data hay.data

/-! ## Data model -/

/-- Shape of a Python `skills` value: a comma-separated string, a list of
strings (a `None` element behaves exactly like `""`, both are falsy and
filtered), or anything else (`None`, a number, ...). -/
inductive SkillsVal where
  | str (s : String)
  | list (l : List String)
  | other
deriving DecidableEq, Repr

/-- A job document.  String fields default to `""` (the Python code reads
them with `job.get(field, '')`); `idField` models `job.get('$id')` and
`jobId` models `job.get('jobId')`, where `none` is an absent key. -/
structure Job where
  idField : Option String := none
  jobId : Option String := none
  jobRole : String := ""
  companyName : String := ""
  location : String := ""
  jobType : String := ""
  experienceLevel : String := ""
  category : String := ""
  description : String := ""
  skills : SkillsVal := .list []
deriving DecidableEq, Repr

/-- A user document, as read by the engine. -/
structure UserProfile where
  skills : SkillsVal := .list []
  location : String := ""
  experienceLevel : String := ""
  education : String := ""
deriving DecidableEq, Repr

/-- Python truthiness of an optional string. -/
def optTruthy : Option String → Bool
  | none => false
  | some s => !s.isEmpty

/-- `job.get('$id') or job.get('jobId')`: Python `or` returns the first
truthy operand, else the second operand unchanged. -/
def effectiveJobId (j : Job) : Option String :=
  if optTruthy j.idField then j.idField else j.jobId

/-- `job_id in recent_job_ids` where `job_id` may be Python `None`
(`None` is never an element of a list of strings). -/
def idMem : Option String → List String → Bool
  | none, _ => false
  | some s, ids => s ∈ ids

/-! ## preprocess_skills (recommendation_engine.py lines 16-24) -/

/-- `preprocess_skills`: a comma-separated string is split (empty segments
kept) and each segment stripped and lowercased; a list keeps its truthy
elements, each stripped and lowercased; anything else becomes `[]`. -/
def preprocess_skills : SkillsVal → List String
  | .str s => (pySplitComma s).map (fun t => pyLower (pyStrip t))
  | .list l => (l.filter (fun t => !t.isEmpty)).map (fun t => pyLower (pyStrip t))
  | .other => []

/-! ## extract_features_from_job (lines 26-35) -/

/-- Job text document: role, description, company and category joined by
single spaces, lowercased.  Never empty: it always contains the three
separating spaces. -/
def extract_features_from_job (j : Job) : String :=
  pyLower (j.jobRole ++ " " ++ j.description ++ " " ++ j.companyName ++ " " ++ j.category)

/-! ## calculate_skill_similarity (lines 37-48) -/

/-- Jaccard similarity on normalized skill sets; `0` if either set is
empty, and (vacuously guarded in the source) `0` for an empty union. -/
def calculate_skill_similarity (user_skills job_skills : SkillsVal) : ℚ :=
  let us := (preprocess_skills user_skills).toFinset
  let js := (preprocess_skills job_skills).toFinset
  if us = ∅ ∨ js = ∅ then 0
  else
    let inter := us ∩ js
    let union := us ∪ js
    if union = ∅ then 0 else (inter.card : ℚ) / (union.card : ℚ)

/-! ## calculate_location_match (lines 50-65) -/

/-- Location compatibility cascade. -/
def calculate_location_match (user_location job_location : String) : ℚ :=
  if user_location = "" ∨ job_location = "" then 1/2
  else
    let ul := pyStrip (pyLower user_location)
    let jl := pyStrip (pyLower job_location)
    if ul = jl then 1
    else if pyContains jl "remote" || pyContains jl "anywhere" then 9/10
    else if (pySplitWs ul).any (fun w => pyContains jl w) then 7/10
    else 3/10

/-! ## calculate_experience_match (lines 67-92) -/

/-- The fixed keyword table, in Python dict insertion order. -/
def experience_levels : List (String × Nat) :=
  [("entry", 1), ("junior", 1), ("fresher", 1), ("mid", 2), ("intermediate", 2),
   ("senior", 3), ("lead", 4), ("principal", 5), ("director", 6)]

/-- First-matching-keyword level lookup; empty or unmatched text is level 1. -/
def experienceLevelOf (s : String) : Nat :=
  if s = "" then 1
  else
    match experience_levels.find? (fun p => pyContains (pyLower s) p.1) with
    | some p => p.2
    | none => 1

/-- `max(0, 1 - 0.2 * |userLevel - jobLevel|)`. -/
def calculate_experience_match (user_exp job_exp : String) : ℚ :=
  let d : Nat := ((experienceLevelOf user_exp : ℤ) - (experienceLevelOf job_exp : ℤ)).natAbs
  max 0 (1 - (d : ℚ) * (1/5))

/-! ## analyze_user_preferences_from_activity (lines 136-196) -/

/-- The fixed recency decay sequence. -/
def recency_weights : List ℚ :=
  [1, 9/10, 8/10, 7/10, 6/10, 5/10, 4/10, 3/10, 2/10, 1/10]

/-- Weight of the activity at position `i` (0-based); positions beyond the
tenth receive `1/10`. -/
def weightAt (i : Nat) : ℚ := recency_weights.getD i (1/10)

/-- `d[k] = d.get(k, 0) + w` on an insertion-ordered association list. -/
def addWeight (m : List (String × ℚ)) (k : String) (w : ℚ) : List (String × ℚ) :=
  if m.any (fun p => p.1 = k) then
    m.map (fun p => if p.1 = k then (p.1, p.2 + w) else p)
  else m ++ [(k, w)]

/-- Accumulate, job by job in order, each job's keys into a weighted
association list, the i-th job contributing weight `weightAt i`. -/
def accumulateField (f : Job → List String) (jobs : List Job) : List (String × ℚ) :=
  jobs.enum.foldl
    (fun m iw => (f iw.2).foldl (fun m2 k => addWeight m2 k (weightAt iw.1)) m) []

/-- Company key: `job.get('companyName', '').strip()`, skipped when empty. -/
def companyKeys (j : Job) : List String :=
  let c := pyStrip j.companyName
  if c = "" then [] else [c]

/-- Job type key. -/
def jobTypeKeys (j : Job) : List String :=
  let c := pyStrip j.jobType
  if c = "" then [] else [c]

/-- Location key. -/
def locationKeys (j : Job) : List String :=
  let c := pyStrip j.location
  if c = "" then [] else [c]

/-- Category key. -/
def categoryKeys (j : Job) : List String :=
  let c := pyStrip j.category
  if c = "" then [] else [c]

/-- Skill keys: each truthy, non-blank token, as `skill.lower().strip()`;
a string field is first split on commas; a malformed field contributes
nothing. -/
def skillKeys (j : Job) : List String :=
  match j.skills with
  | .list l =>
    l.filterMap (fun sk => if sk ≠ "" ∧ pyStrip sk ≠ "" then some (pyStrip (pyLower sk)) else none)
  | .str s =>
    (pySplitComma s).filterMap (fun sk => if sk ≠ "" ∧ pyStrip sk ≠ "" then some (pyStrip (pyLower sk)) else none)
  | .other => []

/-- Descending-by-weight ordering used by `sorted(..., reverse=True)`. -/
def weightGE (a b : String × ℚ) : Prop := b.2 ≤ a.2

instance : DecidableRel weightGE :=
  fun a b => inferInstanceAs (Decidable (b.2 ≤ a.2))

instance : IsTotal (String × ℚ) weightGE :=
  ⟨fun a b => le_total b.2 a.2⟩

instance : IsTrans (String × ℚ) weightGE :=
  ⟨fun _ _ _ h1 h2 => le_trans h2 h1⟩

/-- The preference model: five ranked `(value, accumulatedWeight)` lists. -/
structure Preferences where
  preferred_companies : List (String × ℚ)
  preferred_job_types : List (String × ℚ)
  preferred_locations : List (String × ℚ)
  preferred_categories : List (String × ℚ)
  trending_skills : List (String × ℚ)
deriving DecidableEq, Repr

/-- `analyze_user_preferences_from_activity`: `none` models the empty
Python dict `{}` returned for an empty activity list.  A stable
descending sort (Python's `sorted` with `reverse=True`) ranks each
weighted dict; companies keep the top 5, job types, locations and
categories the top 3, and skills the top 10. -/
def analyze_user_preferences_from_activity (recent_jobs : List Job) : Option Preferences :=
  if recent_jobs = [] then none
  else some {
    preferred_companies :=
      (List.insertionSort weightGE (accumulateField companyKeys recent_jobs)).take 5
    preferred_job_types :=
      (List.insertionSort weightGE (accumulateField jobTypeKeys recent_jobs)).take 3
    preferred_locations :=
      (List.insertionSort weightGE (accumulateField locationKeys recent_jobs)).take 3
    preferred_categories :=
      (List.insertionSort weightGE (accumulateField categoryKeys recent_jobs)).take 3
    trending_skills :=
      (List.insertionSort weightGE (accumulateField skillKeys recent_jobs)).take 10 }

/-! ## calculate_activity_based_score (lines 198-259) -/

/-- Lookup in `dict(pairs)`: with duplicate keys the last pair wins. -/
def dictLookup (l : List (String × ℚ)) (k : String) : Option ℚ :=
  (l.reverse.find? (fun p => p.1 = k)).map Prod.snd

/-- Activity-based preference score.  An empty preference model (`none`,
the Python `{}`) short-circuits to `0` before the seen-set check; with a
non-empty model a seen job yields the sentinel `-1`; otherwise capped
contributions from company, job type, location, category and trending
skills accumulate, the total capped at `1`. -/
def calculate_activity_based_score (job : Job) (user_preferences : Option Preferences)
    (recent_job_ids : List String) : ℚ :=
  match user_preferences with
  | none => 0
  | some up =>
    if idMem (effectiveJobId job) recent_job_ids then -1
    else
      let job_company := pyLower (pyStrip job.companyName)
      let compScore : ℚ :=
        match (up.preferred_companies.map (fun p => (pyLower p.1, p.2))).find?
            (fun p => job_company = p.1 || pyContains job_company p.1 || pyContains p.1 job_company) with
        | some p => if job_company = p.1 then 1/4 * min p.2 1 else 3/20 * min p.2 1
        | none => 0
      let job_type := pyLower (pyStrip job.jobType)
      let typeScore : ℚ :=
        match (up.preferred_job_types.map (fun p => (pyLower p.1, p.2))).find?
            (fun p => job_type = p.1) with
        | some p => 1/5 * min p.2 1
        | none => 0
      let job_location := pyLower (pyStrip job.location)
      let locScore : ℚ :=
        match (up.preferred_locations.map (fun p => (pyLower p.1, p.2))).find?
            (fun p => pyContains job_location p.1 || pyContains p.1 job_location) with
        | some p => 3/20 * min p.2 1
        | none => 0
      let job_category := pyLower (pyStrip job.category)
      let catScore : ℚ :=
        match (up.preferred_categories.map (fun p => (pyLower p.1, p.2))).find?
            (fun p => job_category = p.1) with
        | some p => 3/20 * min p.2 1
        | none => 0
      let job_skills := (preprocess_skills job.skills).toFinset
      let raw_skill : ℚ := job_skills.sum (fun s => (dictLookup up.trending_skills s).getD 0)
      let skillScore : ℚ :=
        if job_skills ≠ ∅ then 1/4 * min (raw_skill / (job_skills.card : ℚ)) 1 else 0
      min (compScore + typeScore + locScore + catScore + skillScore) 1

/-! ## calculate_content_similarity (lines 261-286) -/

/-- Python `' '.join(user_skills)`: a list joins its elements, a string is
iterated character by character, and any other value raises (modelled as
`none`; the caller's `except` turns it into a `0` score). -/
def joinSkillsText : SkillsVal → Option String
  | .list l => some (String.intercalate " " l)
  | .str s => some (String.intercalate " " (s.data.map (fun c => String.mk [c])))
  | .other => none

/-- The user text document before lowercasing:
`f"{' '.join(skills)} {education} {experienceLevel}".strip()`. -/
def build_user_text (u : UserProfile) : Option String :=
  (joinSkillsText u.skills).map
    (fun js => pyStrip (js ++ " " ++ u.education ++ " " ++ u.experienceLevel))

/-- TF-IDF cosine similarity between the user document and the job
document.  The fit-and-score step over the two-document corpus is an
environment-supplied function `vec`; `vec ... = none` models a raised
vectorization error, caught here and degraded to `0`. -/
def calculate_content_similarity (vec : String → String → Option ℚ)
    (user_profile : UserProfile) (job : Job) : ℚ :=
  match build_user_text user_profile with
  | none => 0
  | some ut =>
    let jt := extract_features_from_job job
    if ut = "" ∨ jt = "" then 0
    else
      match vec (pyLower ut) jt with
      | none => 0
      | some sim => sim

/-! ## Environment: the external Appwrite collaborator and the vectorizer -/

/-- Pure snapshot of everything the engine consumes from outside for one
request: the vectorizer, `get_user(user_id)`, the user-activity document
(its ten `recent_activity*` slots, in order), `get_job`, and
`get_jobs(limit=500)['documents']` (where `none` is a falsy response). -/
structure Env where
  vec : String → String → Option ℚ
  user : Option UserProfile
  activity : Option (List String)
  jobById : String → Option Job
  jobs : Option (List Job)

/-! ## get_user_activity_job_ids / get_jobs_from_activity (lines 94-134) -/

/-- Valid job ids from the ten activity slots: truthy, not the sentinel
`'0'`, non-blank after stripping; the stripped value is kept. -/
def get_user_activity_job_ids (env : Env) : List String :=
  match env.activity with
  | none => []
  | some slots =>
    (List.range 10).filterMap (fun i =>
      let v := slots.getD i "0"
      if v ≠ "" ∧ v ≠ "0" ∧ pyStrip v ≠ "" then some (pyStrip v) else none)

/-- Resolve each valid activity id to its job document, keeping only jobs
that exist and have a truthy `jobRole`; a failed fetch contributes
nothing. -/
def get_jobs_from_activity (env : Env) : List Job :=
  (get_user_activity_job_ids env).filterMap (fun jid =>
    match env.jobById jid with
    | none => none
    | some j => if j.jobRole ≠ "" then some j else none)

/-! ## get_recommendation_reason (lines 403-412) -/

/-- Human-readable reason string, chosen by priority. -/
def get_recommendation_reason (skill_score activity_score content_similarity : ℚ)
    (has_activity : Bool) : String :=
  if has_activity = true ∧ activity_score > 3/10 then "Based on your recent job interests"
  else if skill_score > 2/5 then "Strong skill match with your profile"
  else if content_similarity > 3/10 then "Similar to your profile and preferences"
  else "Recommended for you"

/-! ## get_recommendations (lines 288-401) -/

/-- One scored candidate: the job, its composite score, the component
scores, the activity flag and the reason string. -/
structure ScoredJob where
  job : Job
  score : ℚ
  skill_score : ℚ
  location_score : ℚ
  experience_score : ℚ
  content_similarity : ℚ
  activity_score : ℚ
  has_activity_data : Bool
  recommendation_reason : String
deriving DecidableEq, Repr

/-- Descending-by-composite-score ordering used by
`job_scores.sort(key=..., reverse=True)`. -/
def scoreGE (a b : ScoredJob) : Prop := b.score ≤ a.score

instance : DecidableRel scoreGE :=
  fun a b => inferInstanceAs (Decidable (b.score ≤ a.score))

instance : IsTotal ScoredJob scoreGE :=
  ⟨fun a b => le_total b.score a.score⟩

instance : IsTrans ScoredJob scoreGE :=
  ⟨fun _ _ _ h1 h2 => le_trans h2 h1⟩

/-- The per-candidate scoring loop.  Candidates without a truthy `jobId`
and `jobRole` are skipped; a negative activity score discards the
candidate; otherwise the composite score uses the warm-start weights
(0.2, 0.2, 0.1, 0.1, 0.4) when the resolved recent-jobs list is
non-empty and the cold-start weights (0.35, 0.35, 0.2, 0.1) when it is
empty. -/
def score_jobs (vec : String → String → Option ℚ) (jobs : List Job)
    (user_data : UserProfile) (recent_jobs : List Job)
    (recent_job_ids : List String) (user_preferences : Option Preferences) : List ScoredJob :=
  jobs.filterMap (fun job =>
    if optTruthy job.jobId = false ∨ job.jobRole = "" then none
    else
      let skill_score := calculate_skill_similarity user_data.skills job.skills
      let location_score := calculate_location_match user_data.location job.location
      let experience_score := calculate_experience_match user_data.experienceLevel job.experienceLevel
      let activity_score := calculate_activity_based_score job user_preferences recent_job_ids
      if activity_score < 0 then none
      else
        let content_similarity := calculate_content_similarity vec user_data job
        let final_score : ℚ :=
          if 0 < recent_jobs.length then
            skill_score * (1/5) + content_similarity * (1/5) + location_score * (1/10) +
              experience_score * (1/10) + activity_score * (2/5)
          else
            skill_score * (7/20) + content_similarity * (7/20) + location_score * (1/5) +
              experience_score * (1/10)
        some {
          job := job
          score := final_score
          skill_score := skill_score
          location_score := location_score
          experience_score := experience_score
          content_similarity := content_similarity
          activity_score := activity_score
          has_activity_data := decide (0 < recent_jobs.length)
          recommendation_reason :=
            get_recommendation_reason skill_score activity_score content_similarity
              (decide (0 < recent_jobs.length)) })

/-- `get_recommendations(user_id, num_recommendations)`: an absent user or
an absent/empty job pool yields `[]`; otherwise the scored candidates are
stably sorted by descending composite score and truncated. -/
def get_recommendations (env : Env) (num_recommendations : Nat) : List ScoredJob :=
  match env.user with
  | none => []
  | some user_data =>
    let recent_jobs := get_jobs_from_activity env
    let recent_job_ids := get_user_activity_job_ids env
    let user_preferences := analyze_user_preferences_from_activity recent_jobs
    match env.jobs with
    | none => []
    | some jobs =>
      if jobs = [] then []
      else
        (List.insertionSort scoreGE
          (score_jobs env.vec jobs user_data recent_jobs recent_job_ids user_preferences)).take
          num_recommendations

/-! ## get_filtered_recommendations (lines 414-438) -/

/-- Post-filters; an empty string models an absent or falsy filter value,
which Python skips. -/
structure Filters where
  jobType : String := ""
  location : String := ""
  category : String := ""
deriving DecidableEq, Repr

/-- A job passes when every supplied filter matches: exact job type,
case-insensitive substring location, exact category. -/
def passesFilters (f : Filters) (j : Job) : Bool :=
  (f.jobType == "" || j.jobType == f.jobType) &&
  (f.location == "" || pyContains (pyLower j.location) (pyLower f.location)) &&
  (f.category == "" || j.category == f.category)

/-- The filter loop: keep passing entries in order, stopping as soon as
the kept count reaches `num` (checked after each append, so `num = 0`
still keeps the first passing entry of a non-empty list). -/
def collectFiltered (f : Filters) : Nat → List ScoredJob → List ScoredJob
  | _, [] => []
  | num, r :: rs =>
    if passesFilters f r.job then
      if num ≤ 1 then [r] else r :: collectFiltered f (num - 1) rs
    else collectFiltered f num rs

/-- `get_filtered_recommendations`: fetch `2 × num` recommendations, then
either truncate (no filters, the falsy `None`/`{}` case) or run the
filter loop. -/
def get_filtered_recommendations (env : Env) (filters : Option Filters)
    (num_recommendations : Nat) : List ScoredJob :=
  let recommendations := get_recommendations env (num_recommendations * 2)
  match filters with
  | none => recommendations.take num_recommendations
  | some f => collectFiltered f num_recommendations recommendations

/-! ## get_user_activity_insights (lines 440-466) -/

/-- The insights record.  `top_*` mirror the `top_interests` dict;
`recent_companies` models `list(set(...))` as a deduplicated list (the
Python set iteration order is unspecified). -/
structure Insights where
  total_activities : Nat
  activity_strength : String
  top_companies : List String
  top_job_types : List String
  top_locations : List String
  top_skills : List String
  recent_companies : List String
  activity_trend : String
  personalization_level : String
deriving DecidableEq, Repr

/-- `get_user_activity_insights`: `None` exactly when no activity job
resolves; `activity_depth` is `len([job for job in recent_jobs if job])`,
which equals `len(recent_jobs)` because every resolved job dict is
non-empty (it has a truthy `jobRole`). -/
def get_user_activity_insights (env : Env) : Option Insights :=
  let recent_jobs := get_jobs_from_activity env
  if recent_jobs = [] then none
  else
    let preferences := (analyze_user_preferences_from_activity recent_jobs).getD
      ⟨[], [], [], [], []⟩
    let activity_depth := recent_jobs.length
    some {
      total_activities := activity_depth
      activity_strength :=
        if 7 ≤ activity_depth then "high" else if 3 ≤ activity_depth then "moderate" else "low"
      top_companies := (preferences.preferred_companies.take 3).map Prod.fst
      top_job_types := (preferences.preferred_job_types.take 3).map Prod.fst
      top_locations := (preferences.preferred_locations.take 3).map Prod.fst
      top_skills := (preferences.trending_skills.take 5).map Prod.fst
      recent_companies :=
        ((recent_jobs.drop (recent_jobs.length - 5)).filterMap
          (fun j => if j.companyName ≠ "" then some j.companyName else none)).dedup
      activity_trend := if 5 ≤ activity_depth then "increasing" else "moderate"
      personalization_level := if 5 ≤ activity_depth then "high" else "developing" }

/-! ## update_user_activity (appwrite_client.py lines 59-137) -/

/-- Read the ten `recent_activity*` slots of an activity document,
keeping truthy non-sentinel values (this reader, unlike
`get_user_activity_job_ids`, does not strip). -/
def readActivitySlots (doc : List String) : List String :=
  (List.range 10).filterMap (fun i =>
    let v := doc.getD i "0"
    if v ≠ "" ∧ v ≠ "0" then some v else none)

/-- The activity-log update rule on the in-memory list: remove the id if
present (first occurrence), insert at the front, keep at most 10. -/
def updatedActivityList (recent : List String) (job_id : String) : List String :=
  (job_id :: (if job_id ∈ recent then recent.erase job_id else recent)).take 10

/-- Lay a list back out over the ten slots, padding with the sentinel. -/
def writeActivitySlots (l : List String) : List String :=
  (List.range 10).map (fun i => l.getD i "0")

/-- `update_user_activity(user_id, job_id)`: falsy inputs are rejected
(`None` result, nothing persisted); otherwise the existing document (or
an absent one, read as empty) is updated by the rule and the ten slots
are written back. -/
def update_user_activity (existing : Option (List String)) (user_id job_id : String) :
    Option (List String) :=
  if user_id = "" ∨ job_id = "" then none
  else
    let recent := match existing with
      | none => []
      | some doc => readActivitySlots doc
    some (writeActivitySlots (updatedActivityList recent job_id))

/-! ## Spec-side descriptions and fixtures used by the theorems -/

/-- The raw tokens the normalizer draws from: comma segments of a string
(empty segments included), truthy elements of a list, nothing otherwise. -/
def rawSkillTokens : SkillsVal → List String
  | .str s => pySplitComma s
  | .list l => l.filter (fun t => !t.isEmpty)
  | .other => []

/-- Length of the ranked trending-skills list of the preference model
(`0` for the empty model). -/
def trendingCount (jobs : List Job) : Nat :=
  match analyze_user_preferences_from_activity jobs with
  | none => 0
  | some p => p.trending_skills.length

/-- The five ranked lists of the preference model, all empty for the
empty model. -/
def prefListsOf (jobs : List Job) : Preferences :=
  (analyze_user_preferences_from_activity jobs).getD ⟨[], [], [], [], []⟩

/-- A job used in counterexamples: six distinct skills. -/
def jobSixSkills : Job :=
  { jobRole := "r", skills := .list ["s1", "s2", "s3", "s4", "s5", "s6"] }

/-- A candidate job whose identifier sits in the seen set. -/
def jSeen : Job := { idField := some "J1", jobId := some "J1", jobRole := "Dev" }

/-- Environment where job `J1` is in the activity log but its job
document can no longer be fetched (`get_job` yields nothing), while the
same identifier is in the candidate pool. -/
def envSeen : Env :=
  { vec := fun _ _ => some 0
    user := some { skills := .list [], location := "", experienceLevel := "", education := "" }
    activity := some ["J1"]
    jobById := fun _ => none
    jobs := some [jSeen] }

/-- The activity job behind id `J1` in the warm-start fixture. -/
def jW1 : Job :=
  { idField := some "J1", jobId := some "J1", jobRole := "Eng", companyName := "Acme" }

/-- Warm-start fixture: the activity id `J1` resolves to a valid job. -/
def envWarm : Env :=
  { vec := fun _ _ => some 0
    user := some { skills := .list [], location := "", experienceLevel := "", education := "" }
    activity := some ["J1"]
    jobById := fun s => if s = "J1" then some jW1 else none
    jobs := some [] }

/-- An arbitrary concrete non-empty preference model. -/
def pW : Preferences := ⟨[], [], [], [], []⟩

/-- Cold-start fixture user. -/
def uW : UserProfile :=
  { skills := .list ["python"], location := "Pune", experienceLevel := "entry", education := "" }

/-- Cold-start fixture candidate job. -/
def jW : Job :=
  { idField := some "A1", jobId := some "A1", jobRole := "Dev", companyName := "Acme"
    location := "Pune", jobType := "Full-time", experienceLevel := "entry", category := "IT"
    description := "", skills := .list ["python"] }

/-- Cold-start fixture environment: no activity, one candidate job. -/
def envW : Env :=
  { vec := fun _ _ => some 0
    user := some uW
    activity := none
    jobById := fun _ => none
    jobs := some [jW] }

/-- The single entry produced by the cold-start fixture. -/
def eW : ScoredJob := (get_recommendations envW 1).headD ⟨jW, 0, 0, 0, 0, 0, 0, false, ""⟩

/-- A user whose constructed text document is empty. -/
def uEmptyText : UserProfile :=
  { skills := .list [], location := "", experienceLevel := "", education := "" }

/-- Insights fixture: one valid activity job. -/
def envInsights : Env :=
  { vec := fun _ _ => some 0
    user := none
    activity := some ["J1"]
    jobById := fun _ => some { jobId := some "J1", jobRole := "Dev", companyName := "Acme" }
    jobs := none }

/-- The insights record the fixture produces. -/
def insW : Insights :=
  { total_activities := 1
    activity_strength := "low"
    top_companies := ["Acme"]
    top_job_types := []
    top_locations := []
    top_skills := []
    recent_companies := ["Acme"]
    activity_trend := "moderate"
    personalization_level := "developing" }

/-! ## Helper lemmas -/

/-- The default head of a non-empty list is a member. -/
lemma headD_mem {α : Type} (l : List α) (d : α) (h : l ≠ []) : l.headD d ∈ l := by
  cases l with
  | nil => exact absurd rfl h
  | cons a t => exact List.mem_cons_self a t

/-- With a non-empty preference model, a candidate whose effective id is
in the seen set scores the sentinel `-1`. -/
lemma activity_score_seen (job : Job) (p : Preferences) (ids : List String)
    (h : idMem (effectiveJobId job) ids = true) :
    calculate_activity_based_score job (some p) ids = -1 := by
  unfold calculate_activity_based_score
  simp [h]

/-- Inversion of membership in the scoring loop: every kept entry records
its own activity score, that score is non-negative, the activity flag
reflects the resolved recent-jobs list, and the composite score is the
warm- or cold-start weighted sum of the recorded components. -/
lemma mem_score_jobs_inv
    (vec : String → String → Option ℚ) (jobs : List Job) (u : UserProfile)
    (rj : List Job) (ids : List String) (p : Option Preferences) (e : ScoredJob)
    (he : e ∈ score_jobs vec jobs u rj ids p) :
    e.activity_score = calculate_activity_based_score e.job p ids ∧
    0 ≤ e.activity_score ∧
    e.has_activity_data = decide (0 < rj.length) ∧
    e.score = (if e.has_activity_data = true then
        e.skill_score * (1/5) + e.content_similarity * (1/5) + e.location_score * (1/10) +
          e.experience_score * (1/10) + e.activity_score * (2/5)
      else
        e.skill_score * (7/20) + e.content_similarity * (7/20) + e.location_score * (1/5) +
          e.experience_score * (1/10)) := by
  unfold score_jobs at he
  rw [List.mem_filterMap] at he
  obtain ⟨job, _, hf⟩ := he
  by_cases h1 : optTruthy job.jobId = false ∨ job.jobRole = ""
  · rw [if_pos h1] at hf
    exact absurd hf (by simp)
  · rw [if_neg h1] at hf
    by_cases h2 : calculate_activity_based_score job p ids < 0
    · rw [if_pos h2] at hf
      exact absurd hf (by simp)
    · rw [if_neg h2] at hf
      have he2 := (Option.some.injEq _ _).mp hf
      subst he2
      refine ⟨rfl, not_lt.mp h2, rfl, ?_⟩
      by_cases h3 : 0 < rj.length <;> simp [h3]

/-- Inversion of membership in `get_recommendations`: the user and job
pool resolved, and the entry came from the scoring loop. -/
lemma mem_get_recommendations_inv (env : Env) (num : Nat) (e : ScoredJob)
    (he : e ∈ get_recommendations env num) :
    ∃ u jobs, env.user = some u ∧ env.jobs = some jobs ∧
      e ∈ score_jobs env.vec jobs u (get_jobs_from_activity env)
        (get_user_activity_job_ids env)
        (analyze_user_preferences_from_activity (get_jobs_from_activity env)) := by
  unfold get_recommendations at he
  rcases hu : env.user with - | u
  · rw [hu] at he
    simp at he
  · rcases hj : env.jobs with - | jobs
    · simp only [hu, hj] at he
      simp at he
    · simp only [hu, hj] at he
      by_cases hnil : jobs = []
      · rw [if_pos hnil] at he
        simp at he
      · rw [if_neg hnil] at he
        have h1 : e ∈ List.insertionSort scoreGE
            (score_jobs env.vec jobs u (get_jobs_from_activity env)
              (get_user_activity_job_ids env)
              (analyze_user_preferences_from_activity (get_jobs_from_activity env))) :=
          List.mem_of_mem_take he
        exact ⟨u, jobs, rfl, rfl, (List.perm_insertionSort scoreGE _).mem_iff.mp h1⟩

/-- The filter loop keeps a sublist of its input. -/
lemma collectFiltered_sublist (f : Filters) : ∀ (num : Nat) (l : List ScoredJob),
    (collectFiltered f num l).Sublist l := by
  intro num l
  induction l generalizing num with
  | nil => simp [collectFiltered]
  | cons r rs ih =>
    unfold collectFiltered
    by_cases hp : passesFilters f r.job
    · rw [if_pos hp]
      by_cases h1 : num ≤ 1
      · rw [if_pos h1]
        exact (List.nil_sublist rs).cons₂ r
      · rw [if_neg h1]
        exact (ih (num - 1)).cons₂ r
    · rw [if_neg hp]
      exact (ih num).cons r

/-- Every entry the filter loop keeps passes every supplied filter. -/
lemma collectFiltered_all (f : Filters) : ∀ (num : Nat) (l : List ScoredJob),
    (collectFiltered f num l).all (fun e => passesFilters f e.job) = true := by
  intro num l
  induction l generalizing num with
  | nil => simp [collectFiltered]
  | cons r rs ih =>
    unfold collectFiltered
    by_cases hp : passesFilters f r.job
    · rw [if_pos hp]
      by_cases h1 : num ≤ 1
      · rw [if_pos h1]
        simp [hp]
      · rw [if_neg h1]
        simp [hp, ih (num - 1)]
    · rw [if_neg hp]
      exact ih num

/-- For a positive target the filter loop keeps at most `num` entries. -/
lemma collectFiltered_length (f : Filters) : ∀ (num : Nat) (l : List ScoredJob),
    1 ≤ num → (collectFiltered f num l).length ≤ num := by
  intro num l
  induction l generalizing num with
  | nil => simp [collectFiltered]
  | cons r rs ih =>
    intro hnum
    unfold collectFiltered
    by_cases hp : passesFilters f r.job
    · rw [if_pos hp]
      by_cases h1 : num ≤ 1
      · rw [if_pos h1]
        simpa using hnum
      · rw [if_neg h1]
        have := ih (num - 1) (by omega)
        simp only [List.length_cons]
        omega
    · rw [if_neg hp]
      exact ih num hnum

/-- For a positive target the filter loop is filtering followed by
truncation. -/
lemma collectFiltered_eq_filter_take (f : Filters) : ∀ (num : Nat) (l : List ScoredJob),
    1 ≤ num →
    collectFiltered f num l = (l.filter (fun e => passesFilters f e.job)).take num := by
  intro num l
  induction l generalizing num with
  | nil => simp [collectFiltered]
  | cons r rs ih =>
    intro hnum
    unfold collectFiltered
    by_cases hp : passesFilters f r.job
    · rw [if_pos hp]
      simp only [List.filter_cons, hp, if_true]
      by_cases h1 : num ≤ 1
      · have : num = 1 := by omega
        subst this
        rw [if_pos (by omega)]
        rfl
      · rw [if_neg h1, ih (num - 1) (by omega)]
        have h2 : num = (num - 1) + 1 := by omega
        rw [h2, List.take_succ_cons]
        have h3 : num - 1 + 1 - 1 = num - 1 := by omega
        rw [h3]
    · rw [if_neg hp]
      simp only [List.filter_cons, hp, if_false]
      exact ih num hnum

/-- `recommend` with a zero limit yields nothing. -/
lemma get_recommendations_zero (env : Env) : get_recommendations env 0 = [] := by
  unfold get_recommendations
  rcases hu : env.user with - | u
  · rfl
  · rcases hj : env.jobs with - | jobs
    · rfl
    · by_cases hnil : jobs = []
      · simp [hnil]
      · simp [hnil]

/-- The set of jobs kept by the scoring loop does not depend on the
vectorizer: a per-candidate vectorization failure degrades only that
candidate's content score and never drops a candidate. -/
lemma score_jobs_map_job (vec1 vec2 : String → String → Option ℚ) (jobs : List Job)
    (u : UserProfile) (rj : List Job) (ids : List String) (p : Option Preferences) :
    (score_jobs vec1 jobs u rj ids p).map (fun e => e.job) =
      (score_jobs vec2 jobs u rj ids p).map (fun e => e.job) := by
  induction jobs with
  | nil => rfl
  | cons hd tl ih =>
    unfold score_jobs at *
    rw [List.filterMap_cons, List.filterMap_cons]
    by_cases h1 : optTruthy hd.jobId = false ∨ hd.jobRole = ""
    · rw [if_pos h1, if_pos h1]
      exact ih
    · rw [if_neg h1, if_neg h1]
      by_cases h2 : calculate_activity_based_score hd p ids < 0
      · rw [if_pos h2, if_pos h2]
        exact ih
      · rw [if_neg h2, if_neg h2]
        simp only [List.map_cons]
        rw [ih]

/-- Each ranked preference list is sorted non-increasingly by weight. -/
lemma sorted_take_weightGE (l : List (String × ℚ)) (n : Nat) :
    ((List.insertionSort weightGE l).take n).Pairwise weightGE :=
  List.Pairwise.sublist (List.take_sublist n _) (List.sorted_insertionSort weightGE l)

/-! ## Claim theorems -/

/-- C3, counterexample: the normalizer does not return only non-empty
tokens.  On the comma-separated string `","` it returns two empty
tokens (Python `','.split(',')` keeps empty segments and the code never
filters them in the string branch). -/
theorem preprocess_keeps_empty_tokens :
    preprocess_skills (SkillsVal.str ",") = ["", ""] ∧
    "" ∈ preprocess_skills (SkillsVal.str ",") :=
  ⟨by decide, by decide⟩

/-- C3, amended: for every input shape the normalizer returns exactly the
raw tokens (comma segments of a string, truthy elements of a sequence,
nothing for an absent or malformed value), each one stripped then
lowercased; it is a total function, but the tokens may be empty. -/
theorem preprocess_skills_normal_form (inp : SkillsVal) :
    preprocess_skills inp = (rawSkillTokens inp).map (fun t => pyLower (pyStrip t)) ∧
    preprocess_skills SkillsVal.other = [] := by
  cases inp <;> exact ⟨rfl, rfl⟩

/-- C2, counterexample: the trending-skills list is truncated to the top
10, not the top 5: a single activity job with six distinct skills yields
a six-entry trending-skills list. -/
theorem preference_model_trending_overflow :
    trendingCount [jobSixSkills] = 6 ∧ ¬ trendingCount [jobSixSkills] ≤ 5 :=
  ⟨by decide, by decide⟩

/-- C2, amended: every ranked list of the preference model is sorted with
non-increasing weights, companies keep at most 5 entries, job types,
locations and categories at most 3, and trending skills at most 10
(for the empty model all five lists are empty). -/
theorem preference_model_check (jobs : List Job) :
    (prefListsOf jobs).preferred_companies.Pairwise weightGE ∧
    (prefListsOf jobs).preferred_companies.length ≤ 5 ∧
    (prefListsOf jobs).preferred_job_types.Pairwise weightGE ∧
    (prefListsOf jobs).preferred_job_types.length ≤ 3 ∧
    (prefListsOf jobs).preferred_locations.Pairwise weightGE ∧
    (prefListsOf jobs).preferred_locations.length ≤ 3 ∧
    (prefListsOf jobs).preferred_categories.Pairwise weightGE ∧
    (prefListsOf jobs).preferred_categories.length ≤ 3 ∧
    (prefListsOf jobs).trending_skills.Pairwise weightGE ∧
    (prefListsOf jobs).trending_skills.length ≤ 10 := by
  unfold prefListsOf analyze_user_preferences_from_activity
  by_cases h : jobs = []
  · rw [if_pos h]
    exact ⟨.nil, by simp, .nil, by simp, .nil, by simp, .nil, by simp, .nil, by simp⟩
  · rw [if_neg h]
    refine ⟨sorted_take_weightGE _ _, ?_, sorted_take_weightGE _ _, ?_,
      sorted_take_weightGE _ _, ?_, sorted_take_weightGE _ _, ?_,
      sorted_take_weightGE _ _, ?_⟩ <;>
    · rw [Option.getD_some]
      rw [List.length_take]
      exact min_le_left _ _

/-- C7: the activity-log update keeps at most 10 entries, puts the new
identifier first, preserves freedom from duplicates, and on the two
scenario runs (J1, J2, J1 again; and eleven distinct jobs) produces
exactly the orders the rule prescribes. -/
theorem activity_update_check : ∀ (l : List String) (jid : String),
    (updatedActivityList l jid).length ≤ 10 ∧
    (updatedActivityList l jid).head? = some jid ∧
    (l.Nodup → (updatedActivityList l jid).Nodup) ∧
    (update_user_activity (update_user_activity (update_user_activity none "u" "J1") "u" "J2")
      "u" "J1").map readActivitySlots = some ["J1", "J2"] ∧
    (["J01", "J02", "J03", "J04", "J05", "J06", "J07", "J08", "J09", "J10", "J11"].foldl
      (fun d j => update_user_activity d "u" j) none).map readActivitySlots =
      some ["J11", "J10", "J09", "J08", "J07", "J06", "J05", "J04", "J03", "J02"] := by
  intro l jid
  refine ⟨?_, ?_, ?_, by decide, by decide⟩
  · unfold updatedActivityList
    rw [List.length_take]
    exact min_le_left _ _
  · rfl
  · intro h
    unfold updatedActivityList
    have hnd : (jid :: if jid ∈ l then l.erase jid else l).Nodup := by
      rw [List.nodup_cons]
      by_cases hm : jid ∈ l
      · rw [if_pos hm]
        refine ⟨fun hc => ?_, h.erase jid⟩
        exact absurd ((h.mem_erase_iff).mp hc).1 (by simp)
      · rw [if_neg hm]
        exact ⟨hm, h⟩
    exact List.Pairwise.sublist (List.take_sublist _ _) hnd

/-- C7 witness: applying the rule to the concrete list `[J2]` and job
`J1` keeps the result duplicate-free. -/
theorem activity_update_check_witness : (updatedActivityList ["J2"] "J1").Nodup :=
  (activity_update_check ["J2"] "J1").2.2.1 (by decide)

/-- C8: the location-match cascade, in order: `0.5` when either string is
empty; else `1.0` on exact case-insensitive trimmed match; else `0.9`
when the job location contains "remote" or "anywhere"; else `0.7` when
some whitespace token of the user location occurs in the job location;
else `0.3` — together with the four concrete vectors from the spec. -/
theorem location_match_check (u j : String) :
    ((u = "" ∨ j = "") → calculate_location_match u j = 1/2) ∧
    (¬(u = "" ∨ j = "") → pyStrip (pyLower u) = pyStrip (pyLower j) →
      calculate_location_match u j = 1) ∧
    (¬(u = "" ∨ j = "") → pyStrip (pyLower u) ≠ pyStrip (pyLower j) →
      (pyContains (pyStrip (pyLower j)) "remote" || pyContains (pyStrip (pyLower j)) "anywhere")
        = true →
      calculate_location_match u j = 9/10) ∧
    (¬(u = "" ∨ j = "") → pyStrip (pyLower u) ≠ pyStrip (pyLower j) →
      (pyContains (pyStrip (pyLower j)) "remote" || pyContains (pyStrip (pyLower j)) "anywhere")
        = false →
      ((pySplitWs (pyStrip (pyLower u))).any (fun w => pyContains (pyStrip (pyLower j)) w))
        = true →
      calculate_location_match u j = 7/10) ∧
    (¬(u = "" ∨ j = "") → pyStrip (pyLower u) ≠ pyStrip (pyLower j) →
      (pyContains (pyStrip (pyLower j)) "remote" || pyContains (pyStrip (pyLower j)) "anywhere")
        = false →
      ((pySplitWs (pyStrip (pyLower u))).any (fun w => pyContains (pyStrip (pyLower j)) w))
        = false →
      calculate_location_match u j = 3/10) ∧
    calculate_location_match "Remote" "" = 1/2 ∧
    calculate_location_match "Bangalore" "Bangalore" = 1 ∧
    calculate_location_match "Bangalore" "Remote - Anywhere" = 9/10 ∧
    calculate_location_match "Pune" "Mumbai" = 3/10 := by
  refine ⟨?_, ?_, ?_, ?_, ?_, rfl, rfl, rfl, rfl⟩
  · intro h
    simp only [calculate_location_match, if_pos h]
  · intro h0 h1
    simp only [calculate_location_match, if_neg h0, h1, if_pos rfl]
    simp
  · intro h0 h1 h2
    simp only [calculate_location_match, if_neg h0]
    rw [if_neg h1, if_pos h2]
  · intro h0 h1 h2 h3
    simp only [calculate_location_match, if_neg h0]
    rw [if_neg h1]
    simp only [h2, Bool.false_eq_true, if_false]
    rw [if_pos h3]
  · intro h0 h1 h2 h3
    simp only [calculate_location_match, if_neg h0]
    rw [if_neg h1]
    simp only [h2, Bool.false_eq_true, if_false]
    simp only [h3, Bool.false_eq_true, if_false]

/-- C8 witness: the cascade applied at the spec's remote-shortcut vector. -/
theorem location_match_check_witness :
    calculate_location_match "Bangalore" "Remote - Anywhere" = 9/10 :=
  (location_match_check "Bangalore" "Remote - Anywhere").2.2.1 (by decide) (by decide) (by decide)

/-- C9: skill similarity is symmetric, lies in `[0, 1]`, and is `0`
whenever either normalized skill set is empty. -/
theorem skill_similarity_check (A B : SkillsVal) :
    calculate_skill_similarity A B = calculate_skill_similarity B A ∧
    0 ≤ calculate_skill_similarity A B ∧
    calculate_skill_similarity A B ≤ 1 ∧
    ((preprocess_skills A).toFinset = ∅ ∨ (preprocess_skills B).toFinset = ∅ →
      calculate_skill_similarity A B = 0) := by
  simp only [calculate_skill_similarity]
  by_cases h : (preprocess_skills A).toFinset = ∅ ∨ (preprocess_skills B).toFinset = ∅
  · have h' : (preprocess_skills B).toFinset = ∅ ∨ (preprocess_skills A).toFinset = ∅ :=
      h.symm
    rw [if_pos h, if_pos h']
    exact ⟨rfl, le_refl 0, by norm_num, fun _ => rfl⟩
  · have h' : ¬((preprocess_skills B).toFinset = ∅ ∨ (preprocess_skills A).toFinset = ∅) :=
      fun hc => h hc.symm
    rw [if_neg h, if_neg h']
    have hA : (preprocess_skills A).toFinset ≠ ∅ := fun he => h (Or.inl he)
    have hu : (preprocess_skills A).toFinset ∪ (preprocess_skills B).toFinset ≠ ∅ := by
      intro he
      exact hA (Finset.union_eq_empty.mp he).1
    have hu' : (preprocess_skills B).toFinset ∪ (preprocess_skills A).toFinset ≠ ∅ := by
      intro he
      exact hA (Finset.union_eq_empty.mp he).2
    rw [if_neg hu, if_neg hu']
    have hpos : (0 : ℚ) <
        (((preprocess_skills A).toFinset ∪ (preprocess_skills B).toFinset).card : ℚ) := by
      exact_mod_cast Finset.card_pos.mpr (Finset.nonempty_iff_ne_empty.mpr hu)
    refine ⟨?_, ?_, ?_, fun hc => absurd hc h⟩
    · rw [Finset.inter_comm, Finset.union_comm]
    · exact div_nonneg (by positivity) hpos.le
    · exact (div_le_one hpos).mpr
        (by exact_mod_cast Finset.card_le_card Finset.inter_subset_union)

/-- C9 witness: an empty (malformed) skills value against a concrete one
scores `0`. -/
theorem skill_similarity_check_witness :
    calculate_skill_similarity SkillsVal.other (SkillsVal.list ["a"]) = 0 :=
  (skill_similarity_check SkillsVal.other (SkillsVal.list ["a"])).2.2.2 (Or.inl rfl)

/-- C10: the insights are absent exactly when no activity job resolves;
otherwise the reported count is the resolved-jobs count, and the strength
bucket is "high" iff the count is at least 7, "moderate" iff it is
between 3 and 6, and "low" iff it is at most 2. -/
theorem insights_check (env : Env) :
    (get_user_activity_insights env = none ↔ get_jobs_from_activity env = []) ∧
    (∀ ins, get_user_activity_insights env = some ins →
      ins.total_activities = (get_jobs_from_activity env).length ∧
      (ins.activity_strength = "high" ↔ 7 ≤ ins.total_activities) ∧
      (ins.activity_strength = "moderate" ↔
        3 ≤ ins.total_activities ∧ ins.total_activities ≤ 6) ∧
      (ins.activity_strength = "low" ↔ ins.total_activities ≤ 2)) := by
  unfold get_user_activity_insights
  by_cases h : get_jobs_from_activity env = []
  · rw [if_pos h]
    refine ⟨by simp [h], ?_⟩
    intro ins hins
    exact absurd hins (by simp)
  · rw [if_neg h]
    refine ⟨by simp [h], ?_⟩
    intro ins hins
    have hins2 := (Option.some.injEq _ _).mp hins
    subst hins2
    refine ⟨rfl, ?_, ?_, ?_⟩ <;>
    · by_cases h7 : 7 ≤ (get_jobs_from_activity env).length <;>
        by_cases h3 : 3 ≤ (get_jobs_from_activity env).length <;>
        simp [h7, h3] <;> omega

/-- C10 witness: the one-activity fixture yields the expected record and
the strength iffs hold at it. -/
theorem insights_check_witness :
    insW.total_activities = (get_jobs_from_activity envInsights).length ∧
    (insW.activity_strength = "high" ↔ 7 ≤ insW.total_activities) ∧
    (insW.activity_strength = "moderate" ↔
      3 ≤ insW.total_activities ∧ insW.total_activities ≤ 6) ∧
    (insW.activity_strength = "low" ↔ insW.total_activities ≤ 2) :=
  (insights_check envInsights).2 insW (by decide)

/-- C6: content similarity is `0` when the constructed user document is
empty or the job document is empty, and `0` when the vectorizer fails on
the constructed documents (the failure is caught inside the per-job
scorer); moreover the set of candidates kept and scored by the scoring
loop does not depend on the vectorizer at all, so one job's
vectorization failure never aborts the scoring of the others. -/
theorem content_similarity_check (vec vec2 : String → String → Option ℚ)
    (u : UserProfile) (j : Job) (jobs : List Job) (rj : List Job)
    (ids : List String) (p : Option Preferences) :
    (build_user_text u = some "" ∨ extract_features_from_job j = "" →
      calculate_content_similarity vec u j = 0) ∧
    (vec (pyLower ((build_user_text u).getD "")) (extract_features_from_job j) = none →
      calculate_content_similarity vec u j = 0) ∧
    (score_jobs vec jobs u rj ids p).map (fun e => e.job) =
      (score_jobs vec2 jobs u rj ids p).map (fun e => e.job) := by
  refine ⟨?_, ?_, score_jobs_map_job vec vec2 jobs u rj ids p⟩
  · intro h
    unfold calculate_content_similarity
    rcases hb : build_user_text u with - | ut
    · simp [hb]
    · rcases h with h | h
      · rw [hb] at h
        have hut : ut = "" := (Option.some.injEq _ _).mp h
        simp [hb, hut]
      · simp [hb, h]
  · intro h
    unfold calculate_content_similarity
    rcases hb : build_user_text u with - | ut
    · simp [hb]
    · rw [hb] at h
      simp only [Option.getD_some] at h
      by_cases he : ut = "" ∨ extract_features_from_job j = ""
      · simp [hb, he]
      · simp [hb, he, h]

/-- C6 witness: on a user whose document is empty the score is `0`, and
with an always-failing vectorizer the score is `0`. -/
theorem content_similarity_check_witness :
    calculate_content_similarity (fun _ _ => some 1) uEmptyText jSeen = 0 ∧
    calculate_content_similarity (fun _ _ => none) uEmptyText jSeen = 0 :=
  ⟨(content_similarity_check (fun _ _ => some 1) (fun _ _ => some 1) uEmptyText jSeen
      [] [] [] none).1 (Or.inl (by decide)),
   (content_similarity_check (fun _ _ => none) (fun _ _ => none) uEmptyText jSeen
      [] [] [] none).2.1 rfl⟩

/-- C4: every entry of the recommendation output carries the activity
flag of the resolved recent-jobs list, and its composite score is the
warm-start weighted sum (0.2, 0.2, 0.1, 0.1, 0.4) of its recorded
component scores when that flag is set and the cold-start weighted sum
(0.35, 0.35, 0.2, 0.1) otherwise. -/
theorem composite_score_check (env : Env) (num : Nat) (e : ScoredJob)
    (he : e ∈ get_recommendations env num) :
    e.has_activity_data = decide (0 < (get_jobs_from_activity env).length) ∧
    e.score = (if e.has_activity_data = true then
        e.skill_score * (1/5) + e.content_similarity * (1/5) + e.location_score * (1/10) +
          e.experience_score * (1/10) + e.activity_score * (2/5)
      else
        e.skill_score * (7/20) + e.content_similarity * (7/20) + e.location_score * (1/5) +
          e.experience_score * (1/10)) := by
  obtain ⟨u, jobs, -, -, hmem⟩ := mem_get_recommendations_inv env num e he
  have h := mem_score_jobs_inv env.vec jobs u _ _ _ e hmem
  exact ⟨h.2.2.1, h.2.2.2⟩

/-- C4 witness: the single entry of the cold-start fixture satisfies the
composite-score equation. -/
theorem composite_score_check_witness :
    eW.has_activity_data = decide (0 < (get_jobs_from_activity envW).length) ∧
    eW.score = (if eW.has_activity_data = true then
        eW.skill_score * (1/5) + eW.content_similarity * (1/5) + eW.location_score * (1/10) +
          eW.experience_score * (1/10) + eW.activity_score * (2/5)
      else
        eW.skill_score * (7/20) + eW.content_similarity * (7/20) + eW.location_score * (1/5) +
          eW.experience_score * (1/10)) :=
  composite_score_check envW 1 eW (headD_mem _ _ (by decide))

/-- C1, counterexample: with an empty preference model the activity
scorer returns `0`, not the sentinel `-1`, for a candidate whose
identifier is in the seen set; consequently, in an environment whose
activity ids no longer resolve to job documents, `recommend` returns the
recently seen job `J1` itself. -/
theorem seen_job_recommended :
    calculate_activity_based_score jSeen none ["J1"] = 0 ∧
    idMem (effectiveJobId jSeen) (get_user_activity_job_ids envSeen) = true ∧
    (get_recommendations envSeen 5).map (fun e => e.job) = [jSeen] :=
  ⟨rfl, by decide, by decide⟩

/-- C1, amended: whenever the preference model is non-empty (which holds
exactly when at least one recent-activity id resolves to a valid job),
the activity scorer returns `-1` for a seen candidate, the orchestrator
keeps only candidates with non-negative activity score, and hence the
output never contains a job whose identifier is in the recent-activity
identifier set. -/
theorem seen_job_exclusion (env : Env) (num : Nat) (p : Preferences) (job : Job)
    (ids : List String)
    (h1 : idMem (effectiveJobId job) ids = true)
    (h2 : get_jobs_from_activity env ≠ []) :
    calculate_activity_based_score job (some p) ids = -1 ∧
    (get_recommendations env num).all (fun e => decide (0 ≤ e.activity_score)) = true ∧
    (get_recommendations env num).all
      (fun e => !idMem (effectiveJobId e.job) (get_user_activity_job_ids env)) = true := by
  refine ⟨activity_score_seen job p ids h1, ?_, ?_⟩
  · rw [List.all_eq_true]
    intro e hee
    obtain ⟨u, jobs, -, -, hmem⟩ := mem_get_recommendations_inv env num e hee
    have h := mem_score_jobs_inv env.vec jobs u _ _ _ e hmem
    exact decide_eq_true h.2.1
  · rw [List.all_eq_true]
    intro e hee
    obtain ⟨u, jobs, -, -, hmem⟩ := mem_get_recommendations_inv env num e hee
    have h := mem_score_jobs_inv env.vec jobs u _ _ _ e hmem
    obtain ⟨p', hp'⟩ : ∃ p',
        analyze_user_preferences_from_activity (get_jobs_from_activity env) = some p' := by
      unfold analyze_user_preferences_from_activity
      rw [if_neg h2]
      exact ⟨_, rfl⟩
    rw [hp'] at h
    by_contra hcon
    have hmemid : idMem (effectiveJobId e.job) (get_user_activity_job_ids env) = true := by
      simpa using hcon
    have hminus := activity_score_seen e.job p' (get_user_activity_job_ids env) hmemid
    have hge := h.2.1
    rw [h.1, hminus] at hge
    norm_num at hge

/-- C1 witness: in the warm-start fixture the seen candidate scores `-1`
and the output excludes all seen identifiers. -/
theorem seen_job_exclusion_witness :
    calculate_activity_based_score jW1 (some pW) ["J1"] = -1 ∧
    (get_recommendations envWarm 3).all (fun e => decide (0 ≤ e.activity_score)) = true ∧
    (get_recommendations envWarm 3).all
      (fun e => !idMem (effectiveJobId e.job) (get_user_activity_job_ids envWarm)) = true :=
  seen_job_exclusion envWarm 3 pW jW1 ["J1"] (by decide) (by decide)

/-- C5: filtered recommendations are a sublist of the double-limit
unfiltered recommendations, every returned entry passes every supplied
filter, at most `limit` entries are returned, and the operation equals
filtering the double-limit output and truncating to `limit`. -/
theorem filtered_recommendations_check (env : Env) (f : Filters) (num : Nat) :
    (get_filtered_recommendations env (some f) num).Sublist
      (get_recommendations env (num * 2)) ∧
    (get_filtered_recommendations env (some f) num).all
      (fun e => passesFilters f e.job) = true ∧
    (get_filtered_recommendations env (some f) num).length ≤ num ∧
    get_filtered_recommendations env (some f) num =
      ((get_recommendations env (num * 2)).filter (fun e => passesFilters f e.job)).take num := by
  have hdef : get_filtered_recommendations env (some f) num =
      collectFiltered f num (get_recommendations env (num * 2)) := rfl
  by_cases h0 : num = 0
  · subst h0
    rw [hdef]
    have hz : get_recommendations env (0 * 2) = [] := by
      rw [Nat.zero_mul]
      exact get_recommendations_zero env
    rw [hz]
    exact ⟨List.Sublist.refl _, rfl, by simp [collectFiltered], rfl⟩
  · have h1 : 1 ≤ num := by omega
    rw [hdef]
    exact ⟨collectFiltered_sublist f num _, collectFiltered_all f num _,
      collectFiltered_length f num _ h1, collectFiltered_eq_filter_take f num _ h1⟩
